import Mathlib

/-!
Verification of the Coaching Decision Engine of the coachingPolicies
repository: a shallow embedding of the Policy Wrapper
(Policy/policy_wrapper.py) and the behaviour-tree leaf nodes
(CoachingBehaviourTree/nodes.py), together with proofs settling the
frozen claims about the natural-language specification.
-/

/-- Modelled from the spec: the closed enumeration of coaching behaviours
(the Behaviour Catalog).  The integer constants live in config.py and
Policy/policy.py, which are absent from src/; the source files in src/
refer to them only by name, so here each named constant becomes a
constructor of a closed enumeration of pairwise-distinct behaviours, as
the spec's Behaviour Catalog describes. -/
inductive Behaviour : Type
  | A_START
  | A_END
  | A_SILENCE
  | A_PREINSTRUCTION
  | A_QUESTIONING
  | A_POSITIVEMODELING
  | A_NEGATIVEMODELING
  | A_PRAISE
  | A_SCOLD
  | A_CONSOLE
  | A_HUSTLE
  | A_FIRSTNAME
  | A_CONCURRENTINSTRUCTIONPOSITIVE
  | A_CONCURRENTINSTRUCTIONNEGATIVE
  | A_POSTINSTRUCTIONPOSITIVE
  | A_POSTINSTRUCTIONNEGATIVE
  | A_PREINSTRUCTION_FIRSTNAME
  | A_PREINSTRUCTION_QUESTIONING
  | A_PREINSTRUCTION_POSITIVEMODELING
  | A_PREINSTRUCTION_NEGATIVEMODELING
  | A_PREINSTRUCTION_PRAISE
  | A_PREINSTRUCTION_MANUALMANIPULATION
  | A_MANUALMANIPULATION_PREINSTRUCTION
  | A_POSITIVEMODELING_PREINSTRUCTION
  | A_POSITIVEMODELING_QUESTIONING
  | A_POSITIVEMODELING_PRAISE
  | A_POSITIVEMODELING_HUSTLE
  | A_POSITIVEMODELING_CONCURRENTINSTRUCTIONPOSITIVE
  | A_POSITIVEMODELING_POSTINSTRUCTIONPOSITIVE
  | A_NEGATIVEMODELING_POSTINSTRUCTIONNEGATIVE
  | A_QUESTIONING_FIRSTNAME
  | A_QUESTIONING_POSITIVEMODELING
  | A_QUESTIONING_NEGATIVEMODELING
  | A_PRAISE_FIRSTNAME
  | A_SCOLD_FIRSTNAME
  | A_SCOLD_POSITIVEMODELING
  | A_CONSOLE_FIRSTNAME
  | A_HUSTLE_FIRSTNAME
  | A_CONCURRENTINSTRUCTIONPOSITIVE_QUESTIONING
  | A_CONCURRENTINSTRUCTIONPOSITIVE_FIRSTNAME
  | A_CONCURRENTINSTRUCTIONPOSITIVE_POSITIVEMODELING
  | A_CONCURRENTINSTRUCTIONPOSITIVE_PRAISE
  | A_CONCURRENTINSTRUCTIONPOSITIVE_MANUALMANIPULATION
  | A_CONCURRENTINSTRUCTIONNEGATIVE_NEGATIVEMODELING
  | A_CONCURRENTINSTRUCTIONNEGATIVE_FIRSTNAME
  | A_CONCURRENTINSTRUCTIONNEGATIVE_MANUALMANIPULATION
  | A_POSTINSTRUCTIONPOSITIVE_QUESTIONING
  | A_POSTINSTRUCTIONPOSITIVE_FIRSTNAME
  | A_POSTINSTRUCTIONPOSITIVE_POSITIVE_MODELING
  | A_POSTINSTRUCTIONPOSITIVE_NEGATIVE_MODELING
  | A_POSTINSTRUCTIONPOSITIVE_MANUALMANIPULATION
  | A_POSTINSTRUCTIONNEGATIVE_QUESTIONING
  | A_POSTINSTRUCTIONNEGATIVE_FIRSTNAME
  | A_POSTINSTRUCTIONNEGATIVE_POSITIVEMODELING
  | A_POSTINSTRUCTIONNEGATIVE_NEGATIVEMODELING
  | A_POSTINSTRUCTIONNEGATIVE_MANUALMANIPULATION
  | A_MANUALMANIPULATION_QUESTIONING
  | A_MANUALMANIPULATION_POSITIVEMODELING
  | A_MANUALMANIPULATION_CONCURRENTINSTRUCTIONNEGATIVE
  | A_MANUALMANIPULATION_CONCURRENTINSTRUCTIONPOSITIVE
  | A_MANUALMANIPULATION_CONSOLE
  | A_MANUALMANIPULATION_FIRSTNAME
  | A_MANUALMANIPULATION_HUSTLE
  | A_MANUALMANIPULATION_POSTINSTRUCTIONNEGATIVE
  | A_MANUALMANIPULATION_POSTINSTRUCTIONPOSITIVE
  | A_MANUALMANIPULATION_PRAISE
  deriving DecidableEq

open Behaviour

/-- Goal level constant from config.py (value given in the comment block of
policy_wrapper.py lines 36-41). -/
def PERSON_GOAL : Int := 0

/-- Goal level constant from config.py. -/
def SESSION_GOAL : Int := 1

/-- Goal level constant from config.py. -/
def EXERCISE_GOAL : Int := 2

/-- Goal level constant from config.py. -/
def SET_GOAL : Int := 3

/-- Goal level constant from config.py. -/
def ACTION_GOAL : Int := 4

/-- Phase constant from config.py. -/
def PHASE_START : Int := 0

/-- Phase constant from config.py. -/
def PHASE_END : Int := 1

/-- Performance level constant from config.py. -/
def GOOD : Int := 0

/-- Performance level constant from config.py. -/
def FAST : Int := 1

/-- Performance level constant from config.py. -/
def SLOW : Int := 2

/-- PolicyWrapper._get_valid_list (policy_wrapper.py lines 127-208):
the whitelist of behaviours that are valid at a given goal level,
performance and phase.  The duplicated praise extension in the
Session/Exercise/Set Start branch (source lines 168-171 contain the same
extend call twice) is kept. -/
def get_valid_list (goal_level performance phase : Int) : List Behaviour :=
  if goal_level = PERSON_GOAL then
    (if phase = PHASE_START then
      [A_PREINSTRUCTION, A_PREINSTRUCTION_FIRSTNAME]
    else
      [A_END])
  else if goal_level = SESSION_GOAL ∨ goal_level = EXERCISE_GOAL ∨ goal_level = SET_GOAL then
    [A_POSTINSTRUCTIONPOSITIVE, A_POSTINSTRUCTIONNEGATIVE,
     A_QUESTIONING, A_POSTINSTRUCTIONPOSITIVE_QUESTIONING,
     A_POSTINSTRUCTIONPOSITIVE_FIRSTNAME,
     A_POSTINSTRUCTIONNEGATIVE_QUESTIONING, A_QUESTIONING_FIRSTNAME,
     A_POSTINSTRUCTIONNEGATIVE_FIRSTNAME,
     A_QUESTIONING_POSITIVEMODELING, A_POSITIVEMODELING_QUESTIONING,
     A_POSTINSTRUCTIONPOSITIVE_POSITIVE_MODELING,
     A_POSTINSTRUCTIONPOSITIVE_NEGATIVE_MODELING,
     A_POSTINSTRUCTIONNEGATIVE_POSITIVEMODELING,
     A_POSTINSTRUCTIONNEGATIVE_NEGATIVEMODELING,
     A_QUESTIONING_NEGATIVEMODELING,
     A_POSITIVEMODELING_POSTINSTRUCTIONPOSITIVE,
     A_NEGATIVEMODELING_POSTINSTRUCTIONNEGATIVE] ++
    (if phase = PHASE_START then
      [A_PREINSTRUCTION, A_PREINSTRUCTION_QUESTIONING,
       A_PREINSTRUCTION_FIRSTNAME,
       A_PREINSTRUCTION_POSITIVEMODELING,
       A_PREINSTRUCTION_NEGATIVEMODELING,
       A_POSITIVEMODELING_PREINSTRUCTION] ++
      (if performance = GOOD then
        [A_PRAISE, A_PRAISE_FIRSTNAME, A_POSITIVEMODELING_PRAISE] ++
        [A_PRAISE, A_PRAISE_FIRSTNAME, A_POSITIVEMODELING_PRAISE]
      else if performance = SLOW ∨ performance = FAST then
        [A_SCOLD, A_CONSOLE, A_SCOLD_FIRSTNAME, A_CONSOLE_FIRSTNAME]
      else [])
    else
      (if goal_level = SESSION_GOAL then [A_END] else []) ++
      (if performance = GOOD then
        [A_PRAISE, A_PRAISE_FIRSTNAME, A_POSITIVEMODELING_PRAISE]
      else if performance = SLOW ∨ performance = FAST then
        [A_SCOLD, A_CONSOLE, A_SCOLD_FIRSTNAME, A_CONSOLE_FIRSTNAME]
      else []))
  else
    [A_SILENCE, A_CONCURRENTINSTRUCTIONPOSITIVE,
     A_QUESTIONING, A_POSITIVEMODELING, A_HUSTLE,
     A_CONCURRENTINSTRUCTIONPOSITIVE_QUESTIONING,
     A_CONCURRENTINSTRUCTIONPOSITIVE_FIRSTNAME,
     A_QUESTIONING_FIRSTNAME, A_HUSTLE_FIRSTNAME,
     A_CONCURRENTINSTRUCTIONPOSITIVE_POSITIVEMODELING,
     A_POSITIVEMODELING_HUSTLE,
     A_POSITIVEMODELING_CONCURRENTINSTRUCTIONPOSITIVE] ++
    (if performance = GOOD then
      [A_PRAISE, A_PRAISE_FIRSTNAME,
       A_CONCURRENTINSTRUCTIONPOSITIVE_PRAISE,
       A_POSITIVEMODELING_PRAISE]
    else if performance = SLOW ∨ performance = FAST then
      [A_CONCURRENTINSTRUCTIONNEGATIVE, A_NEGATIVEMODELING,
       A_SCOLD, A_CONSOLE,
       A_QUESTIONING_NEGATIVEMODELING, A_SCOLD_POSITIVEMODELING,
       A_SCOLD_FIRSTNAME, A_CONSOLE_FIRSTNAME,
       A_CONCURRENTINSTRUCTIONNEGATIVE_NEGATIVEMODELING,
       A_CONCURRENTINSTRUCTIONNEGATIVE_FIRSTNAME]
    else [])

/-- Modelled from the spec: the Policy Sampler collaborator
(Policy/policy.py, absent from src/), an opaque stochastic oracle with
sample_action giving a behaviour for a state and sample_observation
giving a next state for a state and behaviour.  Stochasticity is
captured by an oracle index (a call counter threaded through the
computation): any sequence of sampler outcomes is representable by some
choice of these two functions. -/
structure Policy : Type where
  sample_action : Nat → Int → Behaviour
  sample_observation : Nat → Int → Behaviour → Int

/-- One iteration of the non-Action-goal arm of the while loop in
PolicyWrapper.get_behaviour (policy_wrapper.py lines 82-121): resample
while the counter is at most 10; afterwards map the manual-manipulation
compound behaviours to their base behaviour through the if/elif chain of
lines 88-114; for any other behaviour re-seed A_END as A_START, advance
the latent state through sample_observation, resample, and reset the
counter to zero.  The trailing count increment of line 121 is included
in each outcome.  Result: (behaviour, count, state, oracle index). -/
def resample_step (p : Policy) (state : Int) (behaviour : Behaviour) (count n : Nat) :
    Behaviour × Nat × Int × Nat :=
  if count ≤ 10 then
    (p.sample_action n state, count + 1, state, n + 1)
  else if behaviour = A_MANUALMANIPULATION_QUESTIONING then
    (A_QUESTIONING, count + 1, state, n)
  else if behaviour = A_MANUALMANIPULATION_PREINSTRUCTION
      ∨ behaviour = A_PREINSTRUCTION_MANUALMANIPULATION then
    (A_PREINSTRUCTION, count + 1, state, n)
  else if behaviour = A_MANUALMANIPULATION_POSITIVEMODELING then
    (A_POSITIVEMODELING, count + 1, state, n)
  else if behaviour = A_MANUALMANIPULATION_CONCURRENTINSTRUCTIONNEGATIVE
      ∨ behaviour = A_CONCURRENTINSTRUCTIONNEGATIVE_MANUALMANIPULATION then
    (A_CONCURRENTINSTRUCTIONNEGATIVE, count + 1, state, n)
  else if behaviour = A_MANUALMANIPULATION_CONCURRENTINSTRUCTIONPOSITIVE
      ∨ behaviour = A_CONCURRENTINSTRUCTIONPOSITIVE_MANUALMANIPULATION then
    (A_CONCURRENTINSTRUCTIONPOSITIVE, count + 1, state, n)
  else if behaviour = A_MANUALMANIPULATION_CONSOLE then
    (A_CONSOLE, count + 1, state, n)
  else if behaviour = A_MANUALMANIPULATION_FIRSTNAME then
    (A_FIRSTNAME, count + 1, state, n)
  else if behaviour = A_MANUALMANIPULATION_HUSTLE then
    (A_HUSTLE, count + 1, state, n)
  else if behaviour = A_MANUALMANIPULATION_POSTINSTRUCTIONNEGATIVE
      ∨ behaviour = A_POSTINSTRUCTIONNEGATIVE_MANUALMANIPULATION then
    (A_POSTINSTRUCTIONNEGATIVE, count + 1, state, n)
  else if behaviour = A_MANUALMANIPULATION_POSTINSTRUCTIONPOSITIVE
      ∨ behaviour = A_POSTINSTRUCTIONPOSITIVE_MANUALMANIPULATION then
    (A_POSTINSTRUCTIONPOSITIVE, count + 1, state, n)
  else if behaviour = A_MANUALMANIPULATION_PRAISE then
    (A_PRAISE, count + 1, state, n)
  else
    let reseeded := if behaviour = A_END then A_START else behaviour
    let state' := p.sample_observation n state reseeded
    (p.sample_action (n + 1) state', 0 + 1, state', n + 2)

/-- The while loop of PolicyWrapper.get_behaviour (policy_wrapper.py
lines 76-123), with an explicit fuel parameter bounding the number of
iterations: the source loop has no iteration bound, and a run of the
source that loops forever corresponds here to the loop answering none
for every amount of fuel.  At the Action goal level an invalid behaviour
is replaced by A_SILENCE (line 80); at every other goal level one
resample_step iteration runs. -/
def get_behaviour_loop (p : Policy) (goal_level : Int) (valid_behaviours : List Behaviour) :
    Nat → Behaviour → Nat → Int → Nat → Option (Behaviour × Int × Nat)
  | 0, behaviour, _, state, n =>
    if behaviour ∈ valid_behaviours then some (behaviour, state, n) else none
  | fuel + 1, behaviour, count, state, n =>
    if behaviour ∈ valid_behaviours then
      some (behaviour, state, n)
    else if goal_level = ACTION_GOAL then
      get_behaviour_loop p goal_level valid_behaviours fuel A_SILENCE count state n
    else
      let next := resample_step p state behaviour count n
      get_behaviour_loop p goal_level valid_behaviours fuel next.1 next.2.1 next.2.2.1 next.2.2.2

/-- PolicyWrapper.get_behaviour (policy_wrapper.py lines 52-125): build
the whitelist, special-case the Person-goal End phase to A_END,
otherwise take an initial sample, then run the validation loop.  The
source returns the behaviour alone (the paired obs_behaviour return of
line 125 is commented out). -/
def get_behaviour (fuel : Nat) (p : Policy) (state : Int)
    (goal_level performance phase : Int) : Option Behaviour :=
  let valid_behaviours := get_valid_list goal_level performance phase
  let init : Behaviour × Nat :=
    if goal_level = PERSON_GOAL ∧ phase = PHASE_END then (A_END, 0)
    else (p.sample_action 0 state, 1)
  (get_behaviour_loop p goal_level valid_behaviours fuel init.1 0 state init.2).map Prod.fst

/-- The repetition-suppression step of GetBehaviour.run (nodes.py lines
127-133): a behaviour already recorded in controller.used_behaviours is
replaced by A_PREINSTRUCTION at the Session, Exercise and Set goal
levels, otherwise the behaviour is appended to used_behaviours.
Result: (deposited behaviour, updated used_behaviours). -/
def getBehaviour_suppress (behaviour : Behaviour) (used : List Behaviour)
    (goal_level : Int) : Behaviour × List Behaviour :=
  if behaviour ∈ used ∧
      (goal_level = SESSION_GOAL ∨ goal_level = EXERCISE_GOAL ∨ goal_level = SET_GOAL) then
    (A_PREINSTRUCTION, used)
  else
    (behaviour, used ++ [behaviour])

/-- CheckForBehaviour._is_example_of_behaviour (nodes.py lines 317-330):
category membership of a behaviour, with one list for the
A_PREINSTRUCTION category and the questioning list for every other
check. -/
def is_example_of_behaviour (behaviour check_behaviour : Behaviour) : Bool :=
  let check_list :=
    if check_behaviour = A_PREINSTRUCTION then
      [A_PREINSTRUCTION, A_PREINSTRUCTION_PRAISE, A_PREINSTRUCTION_QUESTIONING,
       A_PREINSTRUCTION_POSITIVEMODELING, A_POSITIVEMODELING_PREINSTRUCTION,
       A_PREINSTRUCTION_FIRSTNAME, A_PREINSTRUCTION_MANUALMANIPULATION,
       A_PREINSTRUCTION_NEGATIVEMODELING, A_MANUALMANIPULATION_PREINSTRUCTION]
    else
      [A_QUESTIONING, A_PREINSTRUCTION_QUESTIONING, A_QUESTIONING_FIRSTNAME,
       A_QUESTIONING_POSITIVEMODELING, A_POSITIVEMODELING_QUESTIONING,
       A_CONCURRENTINSTRUCTIONPOSITIVE_QUESTIONING, A_MANUALMANIPULATION_QUESTIONING,
       A_POSTINSTRUCTIONNEGATIVE_QUESTIONING, A_POSTINSTRUCTIONPOSITIVE_QUESTIONING,
       A_QUESTIONING_NEGATIVEMODELING]
  decide (behaviour ∈ check_list)

/-- CheckForBehaviour.run (nodes.py lines 297-315): SUCCESS and a
cleared controller.used_behaviours when the behaviour is an example of
the check category, FAIL leaving used_behaviours unchanged otherwise.
Result: (success flag, updated used_behaviours). -/
def checkForBehaviour_run (behaviour check_behaviour : Behaviour)
    (used : List Behaviour) : Bool × List Behaviour :=
  if is_example_of_behaviour behaviour check_behaviour then (true, [])
  else (false, used)

/-- CreateSubgoal.run (nodes.py lines 507-522): FAIL when the previous
goal level is greater than ACTION_GOAL, SUCCESS with level
previous + 1 otherwise.  FAIL is none, SUCCESS carries the new goal
level. -/
def createSubgoal_run (previous_goal_level : Int) : Option Int :=
  if previous_goal_level > ACTION_GOAL then none
  else some (previous_goal_level + 1)

/-- EndSubgoal.run (nodes.py lines 558-587): FAIL (none) when
goal_level is greater than 4; otherwise SUCCESS carrying
(new_goal, nodedata phase, updated controller goal level, updated
controller phase, updated controller session_time).  The feedback
condition of line 570 decrements the controller goal level and sets the
controller phase to PHASE_END; otherwise the controller phase becomes
PHASE_START.  nodedata.phase is always set to PHASE_START (line 576) and
the session-time counter grows by one when an Exercise goal ends
(lines 578-579). -/
def endSubgoal_run (goal_level set_count ctrl_goal ctrl_session_time : Int) :
    Option (Int × Int × Int × Int × Int) :=
  if goal_level > 4 then none
  else
    let feedback := (goal_level = SET_GOAL ∧ set_count = 2)
      ∨ goal_level = EXERCISE_GOAL ∨ goal_level = SESSION_GOAL
    let ctrl_goal' := if feedback then ctrl_goal - 1 else ctrl_goal
    let ctrl_phase' := if feedback then PHASE_END else PHASE_START
    let ctrl_session_time' :=
      if goal_level = EXERCISE_GOAL then ctrl_session_time + 1 else ctrl_session_time
    some (goal_level - 1, PHASE_START, ctrl_goal', ctrl_phase', ctrl_session_time')

/-- EndSetEvent.run with its configure step (nodes.py lines 901-931):
firstTime is controller.set_count = 0; SUCCESS (true) when firstTime and
the exercise count is at least 10, or not firstTime and the exercise
count is at least 5; on SUCCESS controller.set_count grows by one.
Result: (success flag, updated set_count). -/
def endSetEvent_run (set_count exercise_count : Int) : Bool × Int :=
  let firstTime := set_count = 0
  if (firstTime ∧ exercise_count ≥ 10) ∨ (¬firstTime ∧ exercise_count ≥ 5) then
    (true, set_count + 1)
  else
    (false, set_count)

/-- The arithmetic mean of a list of rationals, as computed exactly by
statistics.mean (which evaluates through exact fractions; it raises on
an empty list, which here degenerates to division by zero). -/
def listMean (l : List ℚ) : ℚ := l.sum / l.length

/-- The builtin round of Python 3 on an exact rational: round half to
even. -/
def pythonRound (q : ℚ) : ℤ :=
  let f := ⌊q⌋
  let r := q - f
  if r < 1 / 2 then f
  else if 1 / 2 < r then f + 1
  else if f % 2 = 0 then f else f + 1

/-- The set-goal End-phase branch of TimestepCue.run (nodes.py lines
739-747): fold the accumulated set performance list with
round(mean(..)) and the set score list with mean(..), emitting
(phase, performance, score, target). -/
def timestepCue_set_end (set_performance_list : List ℤ) (set_score_list : List ℚ)
    (target : ℚ) : Int × ℤ × ℚ × ℚ :=
  (PHASE_END,
   pythonRound (listMean (set_performance_list.map fun i => (i : ℚ))),
   listMean set_score_list,
   target)

/-- The exercise-goal End-phase branch of TimestepCue.run (nodes.py
lines 714-725): fold the accumulated exercise performance list with
round(mean(..)) and the exercise score list with mean(..), emitting
(phase, performance, score, target). -/
def timestepCue_exercise_end (exercise_performance_list : List ℤ)
    (exercise_score_list : List ℚ) (target : ℚ) : Int × ℤ × ℚ × ℚ :=
  (PHASE_END,
   pythonRound (listMean (exercise_performance_list.map fun i => (i : ℚ))),
   listMean exercise_score_list,
   target)

/-- The fixed manual-manipulation canonicalization table that the spec
describes for the retry-exhaustion path, as data: compound behaviour
paired with its base behaviour. -/
def mm_table : List (Behaviour × Behaviour) :=
  [(A_MANUALMANIPULATION_QUESTIONING, A_QUESTIONING),
   (A_MANUALMANIPULATION_PREINSTRUCTION, A_PREINSTRUCTION),
   (A_PREINSTRUCTION_MANUALMANIPULATION, A_PREINSTRUCTION),
   (A_MANUALMANIPULATION_POSITIVEMODELING, A_POSITIVEMODELING),
   (A_MANUALMANIPULATION_CONCURRENTINSTRUCTIONNEGATIVE, A_CONCURRENTINSTRUCTIONNEGATIVE),
   (A_CONCURRENTINSTRUCTIONNEGATIVE_MANUALMANIPULATION, A_CONCURRENTINSTRUCTIONNEGATIVE),
   (A_MANUALMANIPULATION_CONCURRENTINSTRUCTIONPOSITIVE, A_CONCURRENTINSTRUCTIONPOSITIVE),
   (A_CONCURRENTINSTRUCTIONPOSITIVE_MANUALMANIPULATION, A_CONCURRENTINSTRUCTIONPOSITIVE),
   (A_MANUALMANIPULATION_CONSOLE, A_CONSOLE),
   (A_MANUALMANIPULATION_FIRSTNAME, A_FIRSTNAME),
   (A_MANUALMANIPULATION_HUSTLE, A_HUSTLE),
   (A_MANUALMANIPULATION_POSTINSTRUCTIONNEGATIVE, A_POSTINSTRUCTIONNEGATIVE),
   (A_POSTINSTRUCTIONNEGATIVE_MANUALMANIPULATION, A_POSTINSTRUCTIONNEGATIVE),
   (A_MANUALMANIPULATION_POSTINSTRUCTIONPOSITIVE, A_POSTINSTRUCTIONPOSITIVE),
   (A_POSTINSTRUCTIONPOSITIVE_MANUALMANIPULATION, A_POSTINSTRUCTIONPOSITIVE),
   (A_MANUALMANIPULATION_PRAISE, A_PRAISE)]

/-- Claim C3 as stated: one resampling iteration follows the claim's
words with a retry budget of 10 resampling attempts (counter values 0
through 9), the canonicalization expressed through the fixed lookup
table, and the End-marker re-seed, latent-state advance, resample and
counter reset on any other still-invalid behaviour.  The shared counter
increment applies to every outcome, as in the claim's phrase about
incrementing a retry counter. -/
def resample_step_claim (p : Policy) (state : Int) (behaviour : Behaviour) (count n : Nat) :
    Behaviour × Nat × Int × Nat :=
  if count < 10 then
    (p.sample_action n state, count + 1, state, n + 1)
  else
    match mm_table.lookup behaviour with
    | some base => (base, count + 1, state, n)
    | none =>
      let reseeded := if behaviour = A_END then A_START else behaviour
      let state' := p.sample_observation n state reseeded
      (p.sample_action (n + 1) state', 0 + 1, state', n + 2)

/-- Claim C3 amended: identical to resample_step_claim except that the
retry budget covers the first 11 resampling attempts (counter values 0
through 10), matching the source's count at most 10 guard. -/
def resample_step_amended (p : Policy) (state : Int) (behaviour : Behaviour) (count n : Nat) :
    Behaviour × Nat × Int × Nat :=
  if count < 11 then
    (p.sample_action n state, count + 1, state, n + 1)
  else
    match mm_table.lookup behaviour with
    | some base => (base, count + 1, state, n)
    | none =>
      let reseeded := if behaviour = A_END then A_START else behaviour
      let state' := p.sample_observation n state reseeded
      (p.sample_action (n + 1) state', 0 + 1, state', n + 2)

/-- A Policy Sampler stub whose sample_action always answers A_SILENCE
and whose sample_observation always answers state 0; A_SILENCE is
invalid at every non-Action goal level. -/
def silencePolicy : Policy :=
  ⟨fun _ _ => A_SILENCE, fun _ _ _ => 0⟩

/-- A Policy Sampler stub whose sample_action always answers A_PRAISE
and whose sample_observation always answers state 0. -/
def praisePolicy : Policy :=
  ⟨fun _ _ => A_PRAISE, fun _ _ _ => 0⟩

/-- The validation loop answers at once when the behaviour in hand is
already on the whitelist, whatever the remaining fuel. -/
theorem get_behaviour_loop_exit (p : Policy) (goal_level : Int)
    (valid_behaviours : List Behaviour) (fuel : Nat) (b : Behaviour) (count : Nat)
    (state : Int) (n : Nat) (h : b ∈ valid_behaviours) :
    get_behaviour_loop p goal_level valid_behaviours fuel b count state n =
      some (b, state, n) := by
  cases fuel <;> simp [get_behaviour_loop, h]

/-- Partial correctness of the validation loop: any behaviour the loop
answers lies on the whitelist it was given. -/
theorem get_behaviour_loop_mem (p : Policy) (goal_level : Int)
    (valid_behaviours : List Behaviour) :
    ∀ (fuel : Nat) (b : Behaviour) (count : Nat) (state : Int) (n : Nat)
      (r : Behaviour × Int × Nat),
      get_behaviour_loop p goal_level valid_behaviours fuel b count state n = some r →
      r.1 ∈ valid_behaviours := by
  intro fuel
  induction fuel with
  | zero =>
    intro b count state n r h
    rw [get_behaviour_loop] at h
    split at h
    next hb => cases h; exact hb
    next => cases h
  | succ fuel ih =>
    intro b count state n r h
    rw [get_behaviour_loop] at h
    split at h
    next hb => cases h; exact hb
    next =>
      split at h
      next => exact ih _ _ _ _ _ h
      next => exact ih _ _ _ _ _ h

/-- Validity closure at the Action goal level: A_SILENCE is on the
whitelist for every performance and phase. -/
theorem silence_valid_action (performance phase : Int) :
    A_SILENCE ∈ get_valid_list ACTION_GOAL performance phase := by
  unfold get_valid_list
  rw [if_neg (by decide), if_neg (by decide)]
  simp

/-- A_PREINSTRUCTION is on the whitelist of the Start phase at the
Session, Exercise and Set goal levels, for every performance. -/
theorem preinstruction_valid_start (goal_level performance : Int)
    (h : goal_level = SESSION_GOAL ∨ goal_level = EXERCISE_GOAL ∨ goal_level = SET_GOAL) :
    A_PREINSTRUCTION ∈ get_valid_list goal_level performance PHASE_START := by
  have hne : ¬ goal_level = PERSON_GOAL := by
    rcases h with h | h | h <;> subst h <;> decide
  unfold get_valid_list
  rw [if_neg hne, if_pos h, if_pos rfl]
  simp

/-- With the always-A_SILENCE sampler stub, the validation loop at the
Session goal level, Good performance and Start phase never exits,
whatever the fuel: A_SILENCE is off the whitelist, every resample
returns A_SILENCE again and the canonicalization path also resamples
A_SILENCE. -/
theorem silence_loop_never_exits :
    ∀ (fuel count : Nat) (state : Int) (n : Nat),
      get_behaviour_loop silencePolicy SESSION_GOAL
        (get_valid_list SESSION_GOAL GOOD PHASE_START) fuel A_SILENCE count state n =
        none := by
  have hmem : A_SILENCE ∉ get_valid_list SESSION_GOAL GOOD PHASE_START := by decide
  have hgl : ¬ (SESSION_GOAL = ACTION_GOAL) := by decide
  intro fuel
  induction fuel with
  | zero =>
    intro count state n
    rw [get_behaviour_loop, if_neg hmem]
  | succ fuel ih =>
    intro count state n
    rw [get_behaviour_loop, if_neg hmem, if_neg hgl]
    by_cases hc : count ≤ 10
    · simpa [resample_step, hc, silencePolicy] using ih (count + 1) state (n + 1)
    · simpa [resample_step, hc, silencePolicy] using ih 1 0 (n + 2)

/-- Claim C1 counterexample: at the Session goal level, Good
performance and End phase, with a sampler answering the valid behaviour
A_PRAISE and with A_PRAISE already recorded in used_behaviours, the
wrapper returns A_PRAISE but the Decision Step Driver deposits
A_PREINSTRUCTION, which is not a member of the whitelist for that
context. -/
theorem C1_counterexample :
    get_behaviour 1 praisePolicy 0 SESSION_GOAL GOOD PHASE_END = some A_PRAISE ∧
    (getBehaviour_suppress A_PRAISE [A_PRAISE] SESSION_GOAL).1 ∉
      get_valid_list SESSION_GOAL GOOD PHASE_END := by
  constructor <;> decide

/-- Claim C1 amended: whenever get_behaviour returns, the returned
behaviour is a member of the whitelist computed by _get_valid_list for
the same goal level, performance and phase; the behaviour deposited by
GetBehaviour.run after repetition suppression is also a member whenever
the suppression override does not fire or the phase is Start (when the
override fires at the End phase of the Session, Exercise or Set level,
the deposited A_PREINSTRUCTION can lie outside the whitelist). -/
theorem C1_amended_whitelist_invariant :
    ∀ (fuel : Nat) (p : Policy) (state : Int) (goal_level performance phase : Int)
      (used : List Behaviour) (b : Behaviour),
      get_behaviour fuel p state goal_level performance phase = some b →
      b ∈ get_valid_list goal_level performance phase ∧
      (¬(b ∈ used ∧ (goal_level = SESSION_GOAL ∨ goal_level = EXERCISE_GOAL ∨
            goal_level = SET_GOAL)) ∨ phase = PHASE_START →
        (getBehaviour_suppress b used goal_level).1 ∈
          get_valid_list goal_level performance phase) := by
  intro fuel p state goal_level performance phase used b h
  have hb : b ∈ get_valid_list goal_level performance phase := by
    simp only [get_behaviour, Option.map_eq_some'] at h
    obtain ⟨r, hr, hr1⟩ := h
    rw [← hr1]
    exact get_behaviour_loop_mem _ _ _ _ _ _ _ _ _ hr
  refine ⟨hb, ?_⟩
  intro hcase
  unfold getBehaviour_suppress
  by_cases hfire : b ∈ used ∧ (goal_level = SESSION_GOAL ∨ goal_level = EXERCISE_GOAL ∨
      goal_level = SET_GOAL)
  · rw [if_pos hfire]
    rcases hcase with hnot | hstart
    · exact absurd hfire hnot
    · subst hstart
      exact preinstruction_valid_start goal_level performance hfire.2
  · rw [if_neg hfire]
    exact hb

/-- Claim C1 amended, witnessed at the Person-goal End bypass with an
empty used_behaviours list. -/
theorem C1_amended_witness :
    A_END ∈ get_valid_list PERSON_GOAL GOOD PHASE_END ∧
    (getBehaviour_suppress A_END [] PERSON_GOAL).1 ∈
      get_valid_list PERSON_GOAL GOOD PHASE_END :=
  have h := C1_amended_whitelist_invariant 0 silencePolicy 0 PERSON_GOAL GOOD PHASE_END
    [] A_END (by decide)
  ⟨h.1, h.2 (by decide)⟩

/-- Claim C2 counterexample: with the sampler stub that always answers
the invalid behaviour A_SILENCE, get_behaviour at the Session goal
level, Good performance and Start phase has not returned after 1000
loop iterations, far beyond any retry ceiling: the
retry/canonicalization loop runs forever. -/
theorem C2_counterexample :
    get_behaviour 1000 silencePolicy 0 SESSION_GOAL GOOD PHASE_START = none := by
  have hinit : ¬ (SESSION_GOAL = PERSON_GOAL ∧ PHASE_START = PHASE_END) := by decide
  simp only [get_behaviour, if_neg hinit]
  rw [show silencePolicy.sample_action 0 0 = A_SILENCE from rfl,
    silence_loop_never_exits 1000 0 0 1]
  rfl

/-- Claim C2 amended: at the Action goal level the wrapper terminates
within one loop iteration for every sampler (in particular for a stub
that always returns an invalid behaviour, in which case A_SILENCE is
substituted) and returns a member of the whitelist; at the other
non-bypass goal levels an always-invalid sampler makes the loop run
forever. -/
theorem C2_amended_action_level_terminates :
    ∀ (p : Policy) (state performance phase : Int),
      ∃ b, get_behaviour 1 p state ACTION_GOAL performance phase = some b ∧
        b ∈ get_valid_list ACTION_GOAL performance phase := by
  intro p state performance phase
  have hinit : ¬ (ACTION_GOAL = PERSON_GOAL ∧ phase = PHASE_END) := by
    intro hc
    exact absurd hc.1 (by decide)
  by_cases h : p.sample_action 0 state ∈ get_valid_list ACTION_GOAL performance phase
  · refine ⟨p.sample_action 0 state, ?_, h⟩
    simp only [get_behaviour, if_neg hinit]
    rw [get_behaviour_loop_exit _ _ _ _ _ _ _ _ h]
    rfl
  · refine ⟨A_SILENCE, ?_, silence_valid_action performance phase⟩
    simp only [get_behaviour, if_neg hinit]
    rw [get_behaviour_loop, if_neg h, if_pos rfl,
      get_behaviour_loop_exit _ _ _ _ _ _ _ _ (silence_valid_action performance phase)]
    rfl

/-- Claim C3 counterexample: at retry-counter value 10 the retry budget
of 10 resampling attempts described by the claim is already spent
(counter values 0 through 9), so the claim maps the manual-manipulation
compound A_MANUALMANIPULATION_PRAISE to its base behaviour, yet the
source (count at most 10) resamples an eleventh time instead. -/
theorem C3_counterexample :
    resample_step silencePolicy 0 A_MANUALMANIPULATION_PRAISE 10 0 ≠
      resample_step_claim silencePolicy 0 A_MANUALMANIPULATION_PRAISE 10 0 := by
  decide

/-- Claim C3 amended: one iteration of the non-Action invalid-behaviour
arm resamples for the first 11 resampling attempts (retry-counter
values 0 through 10), incrementing the counter; once that budget is
spent, a manual-manipulation compound behaviour is mapped to its base
behaviour by the fixed lookup table rather than resampled, and any other
still-invalid behaviour (with A_END first re-seeded as A_START) advances
the latent state once through sample_observation and is resampled with
the retry counter reset to zero before the shared increment. -/
theorem C3_amended_step_equivalence :
    ∀ (p : Policy) (state : Int) (b : Behaviour) (count n : Nat),
      resample_step p state b count n = resample_step_amended p state b count n := by
  intro p state b count n
  by_cases hc : count ≤ 10
  · have hc' : count < 11 := by omega
    simp only [resample_step, resample_step_amended, if_pos hc, if_pos hc']
  · have hc' : ¬ count < 11 := by omega
    simp only [resample_step, resample_step_amended, if_neg hc, if_neg hc']
    cases b <;> rfl

/-- Claim C4, evaluated at a failing input of the caller: get_behaviour
answers a lone behaviour (here A_END on the Person-goal End bypass),
not the pair of behaviour and next state that the spec's contract and
the unpacking assignment of GetBehaviour.run (nodes.py line 124)
expect; the next-state observation is produced only by the separate
get_observation call of nodes.py line 137. -/
theorem C4_wrapper_returns_lone_behaviour :
    get_behaviour 1 silencePolicy 5 PERSON_GOAL GOOD PHASE_END = some A_END := by
  decide

/-- Claim C5: at the Person goal level in the End phase, get_behaviour
returns A_END for every sampler, state, performance and fuel: the
sampler is bypassed and A_END is the whole whitelist there. -/
theorem C5_person_end_bypass :
    ∀ (fuel : Nat) (p : Policy) (state performance : Int),
      get_behaviour fuel p state PERSON_GOAL performance PHASE_END = some A_END := by
  intro fuel p state performance
  have hmem : A_END ∈ get_valid_list PERSON_GOAL performance PHASE_END := by
    unfold get_valid_list
    rw [if_pos rfl, if_neg (by decide)]
    simp
  have hbypass : get_behaviour fuel p state PERSON_GOAL performance PHASE_END =
      (get_behaviour_loop p PERSON_GOAL (get_valid_list PERSON_GOAL performance PHASE_END)
        fuel A_END 0 state 0).map Prod.fst := rfl
  rw [hbypass, get_behaviour_loop_exit _ _ _ _ _ _ _ _ hmem]
  rfl

/-- Claim C6, evaluated at the failing input: CreateSubgoal.run called
at the Action goal level returns SUCCESS with new goal level 5 (one
below the leaf), because the guard of nodes.py line 515 only fails for
levels strictly greater than ACTION_GOAL, contradicting the claim and
the node's own docstring. -/
theorem C6_create_subgoal_at_action_succeeds :
    createSubgoal_run ACTION_GOAL = some (ACTION_GOAL + 1) := by
  decide

/-- Claim C7 counterexample: EndSubgoal.run succeeds at the Set goal
level (level 3), although the claim restricts success to levels at most
Session (level 1). -/
theorem C7_counterexample :
    ¬ (SET_GOAL ≤ SESSION_GOAL) ∧
    (endSubgoal_run SET_GOAL 0 3 0).isSome = true := by
  constructor <;> decide

/-- Claim C7 amended: EndSubgoal succeeds exactly when the current goal
level is at most ACTION_GOAL (level 4, the guard of nodes.py line 566),
failing otherwise; on success the new goal level is the current level
minus one, and the controller phase is set to End exactly when the
ended level is Set with set_count equal to 2, Exercise, or Session, and
to Start otherwise. -/
theorem C7_amended_end_subgoal :
    ∀ (goal_level set_count ctrl_goal ctrl_session_time : Int),
      ((endSubgoal_run goal_level set_count ctrl_goal ctrl_session_time).isSome ↔
        goal_level ≤ ACTION_GOAL) ∧
      (∀ r, endSubgoal_run goal_level set_count ctrl_goal ctrl_session_time = some r →
        r.1 = goal_level - 1 ∧
        (r.2.2.2.1 = PHASE_END ↔
          ((goal_level = SET_GOAL ∧ set_count = 2) ∨ goal_level = EXERCISE_GOAL ∨
            goal_level = SESSION_GOAL))) := by
  intro goal_level set_count ctrl_goal ctrl_session_time
  constructor
  · unfold endSubgoal_run
    by_cases hg : goal_level > 4
    · rw [if_pos hg]
      simp only [Option.isSome_none, Bool.false_eq_true, false_iff, ACTION_GOAL]
      omega
    · rw [if_neg hg]
      simp only [Option.isSome_some, true_iff, ACTION_GOAL]
      omega
  · intro r hr
    unfold endSubgoal_run at hr
    by_cases hg : goal_level > 4
    · rw [if_pos hg] at hr
      cases hr
    · rw [if_neg hg] at hr
      by_cases hf : (goal_level = SET_GOAL ∧ set_count = 2) ∨ goal_level = EXERCISE_GOAL ∨
          goal_level = SESSION_GOAL
      · simp only [if_pos hf] at hr
        cases hr
        exact ⟨rfl, by simp [hf]⟩
      · simp only [if_neg hf] at hr
        cases hr
        refine ⟨rfl, ?_⟩
        simp only [PHASE_START, PHASE_END]
        constructor
        · intro h; cases h
        · intro h; exact absurd h hf

/-- Claim C7 amended, witnessed at an ended Exercise goal: success,
new goal level 1 and controller phase End. -/
theorem C7_amended_witness :
    ((endSubgoal_run EXERCISE_GOAL 0 2 0).isSome ↔ EXERCISE_GOAL ≤ ACTION_GOAL) ∧
    (((1 : Int), (0 : Int), (1 : Int), (1 : Int), (1 : Int)).1 = EXERCISE_GOAL - 1 ∧
      (((1 : Int), (0 : Int), (1 : Int), (1 : Int), (1 : Int)).2.2.2.1 = PHASE_END ↔
        ((EXERCISE_GOAL = SET_GOAL ∧ (0 : Int) = 2) ∨ EXERCISE_GOAL = EXERCISE_GOAL ∨
          EXERCISE_GOAL = SESSION_GOAL))) :=
  ⟨(C7_amended_end_subgoal EXERCISE_GOAL 0 2 0).1,
   (C7_amended_end_subgoal EXERCISE_GOAL 0 2 0).2 (1, 0, 1, 1, 1) (by decide)⟩

/-- Claim C8: in the Decision Step Driver, a freshly selected behaviour
already recorded in used_behaviours at the Session, Exercise or Set
goal level is replaced by A_PREINSTRUCTION, and the subsequent
CheckForBehaviour on the Pre-Instruction category succeeds and clears
used_behaviours; otherwise the behaviour is appended to
used_behaviours; at the Action goal level the selected behaviour is
never overridden. -/
theorem C8_repetition_suppression :
    ∀ (b : Behaviour) (used : List Behaviour) (goal_level : Int),
      (b ∈ used →
        (goal_level = SESSION_GOAL ∨ goal_level = EXERCISE_GOAL ∨ goal_level = SET_GOAL) →
        getBehaviour_suppress b used goal_level = (A_PREINSTRUCTION, used) ∧
        checkForBehaviour_run A_PREINSTRUCTION A_PREINSTRUCTION used = (true, [])) ∧
      (¬(b ∈ used ∧ (goal_level = SESSION_GOAL ∨ goal_level = EXERCISE_GOAL ∨
          goal_level = SET_GOAL)) →
        getBehaviour_suppress b used goal_level = (b, used ++ [b])) ∧
      getBehaviour_suppress b used ACTION_GOAL = (b, used ++ [b]) := by
  intro b used goal_level
  refine ⟨?_, ?_, ?_⟩
  · intro h1 h2
    refine ⟨?_, rfl⟩
    unfold getBehaviour_suppress
    rw [if_pos ⟨h1, h2⟩]
  · intro h
    unfold getBehaviour_suppress
    rw [if_neg h]
  · unfold getBehaviour_suppress
    rw [if_neg (fun hc => by rcases hc with ⟨_, h⟩; revert h; decide)]

/-- Claim C8, witnessed with A_PRAISE at the Session goal level: once
already used (override plus clearing), once fresh (append). -/
theorem C8_witness :
    (getBehaviour_suppress A_PRAISE [A_PRAISE] SESSION_GOAL = (A_PREINSTRUCTION, [A_PRAISE]) ∧
      checkForBehaviour_run A_PREINSTRUCTION A_PREINSTRUCTION [A_PRAISE] = (true, [])) ∧
    getBehaviour_suppress A_PRAISE [] SESSION_GOAL = (A_PRAISE, [A_PRAISE]) :=
  ⟨(C8_repetition_suppression A_PRAISE [A_PRAISE] SESSION_GOAL).1 (by decide) (by decide),
   (C8_repetition_suppression A_PRAISE [] SESSION_GOAL).2.1 (by decide)⟩

/-- Claim C9: at an End-phase TimestepCue at the Set and at the
Exercise goal levels, the performance list 0, 1, 2 folds to the rounded
mean 1 and the score list one half, seven tenths folds to the unrounded
mean three fifths. -/
theorem C9_end_phase_aggregation :
    ∀ target : ℚ,
      timestepCue_set_end [0, 1, 2] [1/2, 7/10] target = (PHASE_END, 1, 3/5, target) ∧
      timestepCue_exercise_end [0, 1, 2] [1/2, 7/10] target = (PHASE_END, 1, 3/5, target) := by
  intro target
  constructor <;>
    norm_num [timestepCue_set_end, timestepCue_exercise_end, listMean, pythonRound]

/-- Claim C10: EndSetEvent returns SUCCESS exactly when the repetition
count in the current set has reached the threshold for that set: 10 on
the very first set of the session (set_count equal to 0) and 5 on every
later set. -/
theorem C10_end_set_threshold :
    ∀ (set_count exercise_count : Int),
      ((endSetEvent_run set_count exercise_count).1 = true ↔
        (if set_count = 0 then 10 ≤ exercise_count else 5 ≤ exercise_count)) := by
  intro set_count exercise_count
  unfold endSetEvent_run
  by_cases h : set_count = 0
  · simp only [h, if_pos rfl]
    by_cases hc10 : (10 : Int) ≤ exercise_count <;> simp [hc10, ge_iff_le]
  · simp only [if_neg h]
    by_cases hc5 : (5 : Int) ≤ exercise_count <;> simp [h, hc5, ge_iff_le]
